import Mathlib

/-!
Shallow embedding of the patient-management HTTP service
(src/index.ts, src/modules/dynamo.ts, src/modules/search.ts,
src/middleware/authentication.middleware.ts, src/config.ts).

External collaborators (DynamoDB, OpenSearch, the Cognito JWKS endpoint
and signature verification) are modelled by explicit world state plus
boolean success oracles: each network send either succeeds with its
documented effect or raises, and the embedded code reacts exactly as the
TypeScript does (try/catch, re-wrapped error messages, no rollback).
Machine-level details (marshalling, uuids) are parameters.
-/

/-- The Patient entity (src/modules/moduls.types.ts, spec section 3):
`PatientID` is the DynamoDB primary key and the OpenSearch document id;
`Conditions` and `Allergies` are sequences of strings. -/
structure Patient where
  PatientID : String
  Name : String
  Address : String
  Conditions : List String
  Allergies : List String
deriving DecidableEq, Repr

/-- A key-value table keyed by PatientID: both the DynamoDB table
`Patients` and the OpenSearch index `patients` are association lists
from document id to stored body. -/
abbrev Table := List (String × Patient)

/-- Combined state of the two external stores, plus a counter of
attempted external sends (every `dynamo.send` / OpenSearch client call
increments it, success or failure). -/
structure World where
  store : Table
  sidx : Table
  calls : Nat
deriving DecidableEq, Repr

/-- Key lookup: the first entry with the given id, as DynamoDB GetItem /
OpenSearch get-by-id behave (at most one entry per key in practice). -/
def lookupId (s : Table) (id : String) : Option Patient :=
  match s with
  | [] => none
  | e :: rest => if e.1 == id then some e.2 else lookupId rest id

/-- PutItem semantics: store the body under the key, replacing any
existing entry with that key. -/
def putEntry (s : Table) (id : String) (p : Patient) : Table :=
  (id, p) :: s.filter (fun e => !(e.1 == id))

/-- DeleteItem semantics: remove the entry with the key; a no-op when
the key is absent. -/
def delEntry (s : Table) (id : String) : Table :=
  s.filter (fun e => !(e.1 == id))

/-- Whether a table holds an entry under the given id. -/
def hasId (s : Table) (id : String) : Bool :=
  (lookupId s id).isSome

/-- Result of one adapter operation: the world after it (including the
effect of any sends already performed) and either a value or the error
message the TypeScript throws. -/
inductive OpResult (α : Type) where
  | ok (w : World) (val : α)
  | err (w : World) (msg : String)
deriving DecidableEq, Repr

/-- World reached by an operation, whether it succeeded or threw. -/
def opWorld {α : Type} : OpResult α → World
  | .ok w _ => w
  | .err w _ => w

/-- Whether the operation threw. -/
def opFailed {α : Type} : OpResult α → Bool
  | .ok _ _ => false
  | .err _ _ => true

/-- Record one attempted external send. -/
def bumpCalls (w : World) : World :=
  { w with calls := w.calls + 1 }

/-- getPatient (src/modules/dynamo.ts lines 31-41): one GetCommand send,
no try/catch of its own, returning the GetCommandOutput whose `Item` is
the looked-up record or absent. -/
def getPatient (w : World) (PatientID : String) (sendOk : Bool) :
    OpResult (Option Patient) :=
  if sendOk then .ok (bumpCalls w) (lookupId w.store PatientID)
  else .err (bumpCalls w) "dynamo send failed"

/-- indexPatient (src/modules/search.ts): one OpenSearch index call with
the PatientID as document id; on failure rethrows its own message. -/
def indexPatient (w : World) (patientData : Patient) (sendOk : Bool) :
    OpResult Unit :=
  let w1 := bumpCalls w
  if sendOk then
    .ok { w1 with sidx := putEntry w1.sidx patientData.PatientID patientData } ()
  else .err w1 "Error occurred while indexing the patient in opensearch"

/-- removePatientFromOpenSearch (src/modules/search.ts): one OpenSearch
delete call by document id. -/
def removePatientFromOpenSearch (w : World) (PatientID : String) (sendOk : Bool) :
    OpResult Unit :=
  let w1 := bumpCalls w
  if sendOk then
    .ok { w1 with sidx := delEntry w1.sidx PatientID } ()
  else .err w1 "Failed to remove patient from OpenSearch"

/-- createPatient (src/modules/dynamo.ts lines 49-66): PutCommand, then
indexPatient with the same record; any failure in either step is caught
and re-thrown as one generic message, with no rollback of the put. -/
def createPatient (w : World) (patientData : Patient) (putOk indexOk : Bool) :
    OpResult Patient :=
  let wp := bumpCalls w
  if putOk then
    let w1 := { wp with store := putEntry wp.store patientData.PatientID patientData }
    match indexPatient w1 patientData indexOk with
    | .ok w2 _ => .ok w2 patientData
    | .err w2 _ => .err w2 "Error occurred while creating the patient"
  else .err wp "Error occurred while creating the patient"

/-- The update payload: the four attributes the UpdateExpression
`SET #name, #address, #conditions, #allergies` writes. -/
structure UpdateInput where
  Name : String
  Address : String
  Conditions : List String
  Allergies : List String
deriving DecidableEq, Repr

/-- updatePatient (src/modules/dynamo.ts lines 75-106): one
UpdateCommand keyed by PatientID that SETs exactly Name, Address,
Conditions, Allergies. DynamoDB UpdateItem upserts: when the key is
absent a fresh item is created from the key and the SET values; when it
is present the four attributes are overwritten in place (the stored
items carry exactly these five attributes). The search index is not
touched. -/
def updatePatient (w : World) (PatientID : String) (updateData : UpdateInput)
    (sendOk : Bool) : OpResult Unit :=
  let w1 := bumpCalls w
  let item : Patient :=
    { PatientID := PatientID, Name := updateData.Name,
      Address := updateData.Address, Conditions := updateData.Conditions,
      Allergies := updateData.Allergies }
  if sendOk then
    .ok { w1 with store := putEntry w1.store PatientID item } ()
  else .err w1 "Error occurred while updating the patient"

/-- deletePatient (src/modules/dynamo.ts lines 114-133): DeleteCommand,
then removePatientFromOpenSearch; failures are caught and re-thrown as
one generic message, and a failed index removal does not revert the
store delete. -/
def deletePatient (w : World) (PatientID : String) (delOk remOk : Bool) :
    OpResult Unit :=
  let wp := bumpCalls w
  if delOk then
    let w1 := { wp with store := delEntry wp.store PatientID }
    match removePatientFromOpenSearch w1 PatientID remOk with
    | .ok w2 _ => .ok w2 ()
    | .err w2 _ => .err w2 "Error occurred while deleting the patient"
  else .err wp "Error occurred while deleting the patient"

/-- DynamoDB `contains(path, operand)` on a List attribute: true exactly
when the operand equals one of the list elements. -/
def dynListContains (l : List String) (operand : String) : Bool :=
  l.any (fun c => c == operand)

/-- findPatientsByCondition (src/modules/dynamo.ts lines 171-195): one
ScanCommand over the whole table with FilterExpression
`contains(#Conditions, :condition)`; `Conditions` is a List attribute,
so the filter keeps the items whose Conditions list has the input as an
element. -/
def findPatientsByCondition (w : World) (input : String) (sendOk : Bool) :
    OpResult (List Patient) :=
  let w1 := bumpCalls w
  if sendOk then
    .ok w1 ((w.store.filter (fun e => dynListContains e.2.Conditions input)).map
      (fun e => e.2))
  else .err w1 "Error occurred while fetching the patient by condition"

/-- Character-list membership of one list inside another as a contiguous
run, starting at the head. -/
def charsPref : List Char → List Char → Bool
  | [], _ => true
  | _ :: _, [] => false
  | a :: as, b :: bs => a == b && charsPref as bs

/-- Contiguous-substring test on character lists. -/
def charsInfix (n : List Char) : List Char → Bool
  | [] => n.isEmpty
  | b :: t => charsPref n (b :: t) || charsInfix n t

/-- `substringOf needle hay` : the needle occurs inside the hay as a
contiguous substring. -/
def substringOf (needle hay : String) : Bool :=
  charsInfix needle.toList hay.toList

/-- Modelled from the spec: `scanByCondition(substring)` as section 4.2
words it, a full-table scan keeping the records whose `Conditions` field
contains the given string as a substring (some condition entry has the
input as a substring). Stated only to compare with the behaviour of
`findPatientsByCondition` above. -/
def scanByConditionSpec (s : Table) (input : String) : List Patient :=
  (s.filter (fun e => e.2.Conditions.any (fun c => substringOf input c))).map
    (fun e => e.2)

example :
    findPatientsByCondition
      ⟨[("p1", ⟨"p1", "Jane", "1 Elm", ["asthma"], []⟩)], [], 0⟩ "asthma" true
      = .ok ⟨[("p1", ⟨"p1", "Jane", "1 Elm", ["asthma"], []⟩)], [], 1⟩
          [⟨"p1", "Jane", "1 Elm", ["asthma"], []⟩] := by decide


/-- The configuration the middleware reads (src/config.ts): the Cognito
app client id and the issuer URL derived from region and pool id. -/
structure AuthConfig where
  clientId : String
  awsTokenIssuer : String
deriving DecidableEq, Repr

/-- The claims of a verified access token that the middleware inspects
(src/middleware/authentication.middleware.ts lines 86-103). -/
structure TokenClaims where
  client_id : String
  iss : String
  exp : Int
deriving DecidableEq, Repr

/-- Per-request authentication environment: the authorization header as
received, and the outcomes of the three external steps the middleware
performs on it — jwt.decode (none: malformed token; some kid?: decoded
header with its optional kid), the JWKS signing-key fetch, and the
Cognito signature verification yielding the payload claims — plus the
request-time clock reading in seconds. -/
structure AuthEnv where
  authorizationHeader : Option String
  decodedKid : Option (Option String)
  signingKey : Option String
  verifiedClaims : Option TokenClaims
  nowSeconds : Int
deriving DecidableEq, Repr

/-- What the middleware does with the request: call next() or send a
response and stop. -/
inductive AuthOutcome where
  | accepted
  | rejected (status : Nat) (body : String)
deriving DecidableEq, Repr

/-- JavaScript truthiness of the header value: undefined and the empty
string are falsy. -/
def headerTruthy : Option String → Bool
  | none => false
  | some t => !(t == "")

/-- authenticate (src/middleware/authentication.middleware.ts): extract
the authorization header, decode the token and read its kid, fetch the
signing key, verify the signature, then accept exactly when client_id
and iss match the configuration and the current time in seconds is at
most exp; every failure path throws and the catch-all answers
status 401 with body Access denied. -/
def authenticate (cfg : AuthConfig) (env : AuthEnv) : AuthOutcome :=
  if headerTruthy env.authorizationHeader then
    match env.decodedKid with
    | none => .rejected 401 "Access denied"
    | some none => .rejected 401 "Access denied"
    | some (some _) =>
      match env.signingKey with
      | none => .rejected 401 "Access denied"
      | some _ =>
        match env.verifiedClaims with
        | none => .rejected 401 "Access denied"
        | some tokenData =>
          if tokenData.client_id == cfg.clientId
              && tokenData.iss == cfg.awsTokenIssuer
              && decide (env.nowSeconds ≤ tokenData.exp) then
            .accepted
          else
            .rejected 401 "Access denied"
  else .rejected 401 "Access denied"

/-- One route response: the success envelope
`\x7bstatusCode, data, description\x7d` serialised with an HTTP status, or
the catch-all error text. -/
inductive RouteResp (α : Type) where
  | success (status : Nat) (statusCode : String) (data : α) (description : String)
  | failure (status : Nat) (body : String)
deriving DecidableEq, Repr

/-- An Express route guarded by the authenticate middleware
(src/index.ts): the handler body runs only when the middleware calls
next(); a rejection sends the middleware response with the world — both
stores and the attempted-send counter — untouched. -/
def runProtected {α : Type} (cfg : AuthConfig) (env : AuthEnv) (w : World)
    (handler : World → World × RouteResp α) : World × RouteResp α :=
  match authenticate cfg env with
  | .accepted => handler w
  | .rejected s b => (w, .failure s b)

/-- GET /patients/:id (src/index.ts lines 242-257): getPatient, then a
200 envelope with data := result.Item; any throw yields the generic
500 text. -/
def getPatientRoute (id : String) (sendOk : Bool) (w : World) :
    World × RouteResp (Option Patient) :=
  match getPatient w id sendOk with
  | .ok w1 r =>
      (w1, .success 200 "FETCHED_SUCCESSFULLY" r "Patient fetched successfully")
  | .err w1 _ => (w1, .failure 500 "Something went wrong!")

/-- The JSON body of POST /patients as the route reads it: the four
destructured fields, and whatever PatientID the caller may also have
put in the body (never read by the route). -/
structure CreateBody where
  bodyPatientID : Option String
  Name : String
  Address : String
  Conditions : List String
  Allergies : List String
deriving DecidableEq, Repr

/-- The patientData object built by POST /patients (src/index.ts lines
34-41): a freshly minted uuid as PatientID plus the four body fields. -/
def mkPatientData (freshId : String) (b : CreateBody) : Patient :=
  { PatientID := freshId, Name := b.Name, Address := b.Address,
    Conditions := b.Conditions, Allergies := b.Allergies }

/-- POST /patients (src/index.ts lines 31-53): build patientData with a
fresh uuid, createPatient, answer 201 with the created record, or the
generic 500 text on any throw. -/
def createRoute (freshId : String) (b : CreateBody) (putOk indexOk : Bool)
    (w : World) : World × RouteResp Patient :=
  match createPatient w (mkPatientData freshId b) putOk indexOk with
  | .ok w1 p =>
      (w1, .success 201 "CREATED_SUCCESSFULLY" p "Patient created successfully")
  | .err w1 _ => (w1, .failure 500 "Something went wrong!")

example :
    authenticate ⟨"c1", "iss1"⟩
      ⟨some "tok", some (some "k"), some "pk", some ⟨"c1", "iss1", 100⟩, 50⟩
      = .accepted := by decide

example :
    authenticate ⟨"c1", "iss1"⟩
      ⟨some "tok", some (some "k"), some "pk", some ⟨"c1", "iss1", 100⟩, 101⟩
      = .rejected 401 "Access denied" := by decide

theorem lookupId_filter_self (s : Table) (id : String) :
    lookupId (s.filter (fun e => !(e.1 == id))) id = none := by
  induction s with
  | nil => rfl
  | cons e rest ih =>
    by_cases he : e.1 = id
    · simpa [List.filter_cons, he] using ih
    · simpa [List.filter_cons, lookupId, he] using ih

theorem lookupId_filter_ne (s : Table) (id k : String) (h : k ≠ id) :
    lookupId (s.filter (fun e => !(e.1 == id))) k = lookupId s k := by
  induction s with
  | nil => rfl
  | cons e rest ih =>
    by_cases he : e.1 = id
    · simp [List.filter_cons, lookupId, he, Ne.symm h, ih]
    · by_cases hk : e.1 = k
      · simp [List.filter_cons, lookupId, he, hk, h]
      · simp [List.filter_cons, lookupId, he, hk, ih]

theorem lookupId_putEntry (s : Table) (id k : String) (p : Patient) :
    lookupId (putEntry s id p) k = if k = id then some p else lookupId s k := by
  by_cases hk : k = id
  · simp [putEntry, lookupId, hk]
  · simp [putEntry, lookupId, hk, Ne.symm hk, lookupId_filter_ne s id k hk]

theorem lookupId_delEntry (s : Table) (id k : String) :
    lookupId (delEntry s id) k = if k = id then none else lookupId s k := by
  by_cases hk : k = id
  · simp [delEntry, hk, lookupId_filter_self]
  · simp [delEntry, hk, lookupId_filter_ne s id k hk]

theorem hasId_putEntry (s : Table) (id k : String) (p : Patient) :
    hasId (putEntry s id p) k = (k == id || hasId s k) := by
  by_cases hk : k = id <;> simp [hasId, lookupId_putEntry, hk]

theorem hasId_delEntry (s : Table) (id k : String) :
    hasId (delEntry s id) k = (!(k == id) && hasId s k) := by
  by_cases hk : k = id <;> simp [hasId, lookupId_delEntry, hk]

theorem authenticate_cases (cfg : AuthConfig) (env : AuthEnv) :
    authenticate cfg env = .accepted ∨
    authenticate cfg env = .rejected 401 "Access denied" := by
  rcases env with ⟨hdr, dec, key, ver, now⟩
  by_cases hh : headerTruthy hdr
  · rcases dec with _ | kid
    · simp [authenticate, hh]
    · rcases kid with _ | k
      · simp [authenticate, hh]
      · rcases key with _ | pk
        · simp [authenticate, hh]
        · rcases ver with _ | claims
          · simp [authenticate, hh]
          · by_cases hc : (claims.client_id == cfg.clientId
                && claims.iss == cfg.awsTokenIssuer
                && decide (now ≤ claims.exp)) = true
            · simp [authenticate, hh, hc]
            · simp [authenticate, hh, hc]
  · simp [authenticate, hh]

/-- C1: for every request whose bearer token passes signature
verification (header present and truthy, token decoded with a kid,
signing key resolved, signature verified to a claims payload), the
middleware calls the next handler exactly when the token's client_id
equals the configured client id, its iss equals the configured issuer
URL, and the current time in seconds is at most the exp claim; any
mismatch yields the 401 rejection instead. -/
theorem authenticate_accept_iff_claims_valid
    (cfg : AuthConfig) (env : AuthEnv) (t kid key : String)
    (claims : TokenClaims)
    (hheader : env.authorizationHeader = some t) (ht : t ≠ "")
    (hdec : env.decodedKid = some (some kid))
    (hkey : env.signingKey = some key)
    (hver : env.verifiedClaims = some claims) :
    (authenticate cfg env = .accepted ↔
      (claims.client_id = cfg.clientId ∧ claims.iss = cfg.awsTokenIssuer ∧
        env.nowSeconds ≤ claims.exp)) ∧
    (¬(claims.client_id = cfg.clientId ∧ claims.iss = cfg.awsTokenIssuer ∧
        env.nowSeconds ≤ claims.exp) →
      authenticate cfg env = .rejected 401 "Access denied") := by
  have hh : headerTruthy env.authorizationHeader = true := by
    simp [hheader, headerTruthy, ht]
  by_cases h1 : claims.client_id = cfg.clientId <;>
    by_cases h2 : claims.iss = cfg.awsTokenIssuer <;>
      by_cases h3 : env.nowSeconds ≤ claims.exp <;>
        simp [authenticate, hh, hdec, hkey, hver, h1, h2, h3]

theorem authenticate_accept_iff_claims_valid_witness :
    (authenticate ⟨"c1", "issuer1"⟩
        ⟨some "tok", some (some "kid1"), some "pk1",
          some ⟨"c1", "issuer1", 100⟩, 50⟩ = .accepted ↔
      (TokenClaims.client_id ⟨"c1", "issuer1", 100⟩ = "c1" ∧
        TokenClaims.iss ⟨"c1", "issuer1", 100⟩ = "issuer1" ∧
        (50 : Int) ≤ TokenClaims.exp ⟨"c1", "issuer1", 100⟩)) ∧
    (¬(TokenClaims.client_id ⟨"c1", "issuer1", 100⟩ = "c1" ∧
        TokenClaims.iss ⟨"c1", "issuer1", 100⟩ = "issuer1" ∧
        (50 : Int) ≤ TokenClaims.exp ⟨"c1", "issuer1", 100⟩) →
      authenticate ⟨"c1", "issuer1"⟩
        ⟨some "tok", some (some "kid1"), some "pk1",
          some ⟨"c1", "issuer1", 100⟩, 50⟩ = .rejected 401 "Access denied") :=
  authenticate_accept_iff_claims_valid ⟨"c1", "issuer1"⟩
    ⟨some "tok", some (some "kid1"), some "pk1", some ⟨"c1", "issuer1", 100⟩, 50⟩
    "tok" "kid1" "pk1" ⟨"c1", "issuer1", 100⟩ rfl (by decide) rfl rfl rfl

/-- C2: any two requests rejected by the middleware, whatever step of
the verification chain failed for each, receive identical responses:
status 401 with the same generic denial body. -/
theorem rejected_responses_identical
    (cfg1 cfg2 : AuthConfig) (env1 env2 : AuthEnv)
    (s1 s2 : Nat) (b1 b2 : String)
    (h1 : authenticate cfg1 env1 = .rejected s1 b1)
    (h2 : authenticate cfg2 env2 = .rejected s2 b2) :
    s1 = 401 ∧ b1 = "Access denied" ∧ s1 = s2 ∧ b1 = b2 := by
  rcases authenticate_cases cfg1 env1 with hA | hA <;> rw [hA] at h1
  · exact absurd h1 (by simp)
  · rcases authenticate_cases cfg2 env2 with hB | hB <;> rw [hB] at h2
    · exact absurd h2 (by simp)
    · injection h1 with e1 f1
      injection h2 with e2 f2
      exact ⟨e1.symm, f1.symm, e1.symm.trans e2, f1.symm.trans f2⟩

theorem rejected_responses_identical_witness :
    (401 : Nat) = 401 ∧ "Access denied" = "Access denied" ∧
      (401 : Nat) = 401 ∧ "Access denied" = "Access denied" :=
  rejected_responses_identical ⟨"c1", "issuer1"⟩ ⟨"c2", "issuer2"⟩
    ⟨none, none, none, none, 0⟩
    ⟨some "tok", some (some "kid1"), some "pk1", some ⟨"c2", "issuer2", 100⟩, 200⟩
    401 401 "Access denied" "Access denied" (by decide) (by decide)

/-- C7: on any protected route, a missing authorization header or a
malformed token (jwt.decode returns null) yields the 401 denial and the
handler body never runs: the world, including the counter of attempted
record-store and search-index sends, is exactly the initial one. -/
theorem auth_rejects_before_adapter_calls {α : Type} (cfg : AuthConfig)
    (env : AuthEnv) (w : World) (handler : World → World × RouteResp α)
    (h : env.authorizationHeader = none ∨ env.decodedKid = none) :
    runProtected cfg env w handler = (w, .failure 401 "Access denied") ∧
    (runProtected cfg env w handler).1.calls = w.calls := by
  rcases env with ⟨hdr, dec, key, ver, now⟩
  have hrej : authenticate cfg ⟨hdr, dec, key, ver, now⟩
      = .rejected 401 "Access denied" := by
    rcases h with h | h <;> simp only at h <;> subst h
    · simp [authenticate, headerTruthy]
    · by_cases hh : headerTruthy hdr <;> simp [authenticate, hh]
  simp [runProtected, hrej]

theorem auth_rejects_before_adapter_calls_witness :
    (runProtected ⟨"c1", "issuer1"⟩
        ⟨none, some (some "kid1"), some "pk1", some ⟨"c1", "issuer1", 100⟩, 50⟩
        ⟨[], [], 0⟩ (getPatientRoute "p1" true)
      = (⟨[], [], 0⟩, .failure 401 "Access denied")) ∧
    (runProtected ⟨"c1", "issuer1"⟩
        ⟨none, some (some "kid1"), some "pk1", some ⟨"c1", "issuer1", 100⟩, 50⟩
        ⟨[], [], 0⟩ (getPatientRoute "p1" true)).1.calls = World.calls ⟨[], [], 0⟩ :=
  auth_rejects_before_adapter_calls ⟨"c1", "issuer1"⟩
    ⟨none, some (some "kid1"), some "pk1", some ⟨"c1", "issuer1", 100⟩, 50⟩
    ⟨[], [], 0⟩ (getPatientRoute "p1" true) (Or.inl rfl)

/-- C8: an authenticated GET /patients/:id for an id absent from the
record store answers with the 200 success envelope whose data payload is
empty, not an error response. -/
theorem get_missing_patient_returns_200_null
    (cfg : AuthConfig) (env : AuthEnv) (w : World) (id : String)
    (hacc : authenticate cfg env = .accepted)
    (hmiss : lookupId w.store id = none) :
    runProtected cfg env w (getPatientRoute id true)
      = (bumpCalls w,
          .success 200 "FETCHED_SUCCESSFULLY" none
            "Patient fetched successfully") := by
  simp [runProtected, hacc, getPatientRoute, getPatient, hmiss]

theorem get_missing_patient_returns_200_null_witness :
    runProtected ⟨"c1", "issuer1"⟩
        ⟨some "tok", some (some "kid1"), some "pk1",
          some ⟨"c1", "issuer1", 100⟩, 50⟩
        ⟨[], [], 0⟩ (getPatientRoute "p9" true)
      = (bumpCalls ⟨[], [], 0⟩,
          .success 200 "FETCHED_SUCCESSFULLY" none
            "Patient fetched successfully") :=
  get_missing_patient_returns_200_null ⟨"c1", "issuer1"⟩
    ⟨some "tok", some (some "kid1"), some "pk1", some ⟨"c1", "issuer1", 100⟩, 50⟩
    ⟨[], [], 0⟩ "p9" (by decide) rfl

/-- C3: starting from stores holding the same set of PatientIDs, a
successful create leaves the record under its PatientID in both the
record store and the search index, a successful delete removes the id
from both, and in each case the two stores again hold the same set of
PatientIDs. -/
theorem create_delete_preserve_id_sync
    (w : World) (p : Patient) (id : String)
    (hsync : ∀ k, hasId w.store k = hasId w.sidx k) :
    (∀ w2 r, createPatient w p true true = .ok w2 r →
      r = p ∧
      lookupId w2.store p.PatientID = some p ∧
      lookupId w2.sidx p.PatientID = some p ∧
      (∀ k, hasId w2.store k = hasId w2.sidx k)) ∧
    (∀ w2 r, deletePatient w id true true = .ok w2 r →
      lookupId w2.store id = none ∧
      lookupId w2.sidx id = none ∧
      (∀ k, hasId w2.store k = hasId w2.sidx k)) := by
  constructor
  · intro w2 r h
    simp [createPatient, indexPatient, bumpCalls] at h
    obtain ⟨hw2, hr⟩ := h
    subst hw2
    refine ⟨hr.symm, ?_, ?_, ?_⟩
    · simp [lookupId_putEntry]
    · simp [lookupId_putEntry]
    · intro k
      simp [hasId_putEntry, hsync k]
  · intro w2 r h
    simp [deletePatient, removePatientFromOpenSearch, bumpCalls] at h
    subst h
    refine ⟨?_, ?_, ?_⟩
    · simp [lookupId_delEntry]
    · simp [lookupId_delEntry]
    · intro k
      simp [hasId_delEntry, hsync k]

theorem create_delete_preserve_id_sync_witness :
    (∀ w2 r,
      createPatient ⟨[], [], 0⟩ ⟨"p1", "Jane", "1 Elm", ["asthma"], []⟩ true true
        = .ok w2 r →
      r = ⟨"p1", "Jane", "1 Elm", ["asthma"], []⟩ ∧
      lookupId w2.store "p1" = some ⟨"p1", "Jane", "1 Elm", ["asthma"], []⟩ ∧
      lookupId w2.sidx "p1" = some ⟨"p1", "Jane", "1 Elm", ["asthma"], []⟩ ∧
      (∀ k, hasId w2.store k = hasId w2.sidx k)) ∧
    (∀ w2 r, deletePatient ⟨[], [], 0⟩ "p1" true true = .ok w2 r →
      lookupId w2.store "p1" = none ∧
      lookupId w2.sidx "p1" = none ∧
      (∀ k, hasId w2.store k = hasId w2.sidx k)) :=
  create_delete_preserve_id_sync ⟨[], [], 0⟩
    ⟨"p1", "Jane", "1 Elm", ["asthma"], []⟩ "p1" (fun _ => rfl)

/-- C4: when the store write of a create succeeds and the subsequent
indexing fails, the operation throws yet the written record stays in the
record store; when the store delete succeeds and the index removal
fails, the delete throws yet the record stays removed from the store. -/
theorem no_rollback_on_index_failure (w : World) (p : Patient) (id : String) :
    opFailed (createPatient w p true false) = true ∧
    lookupId (opWorld (createPatient w p true false)).store p.PatientID
      = some p ∧
    opFailed (deletePatient w id true false) = true ∧
    lookupId (opWorld (deletePatient w id true false)).store id = none := by
  simp [createPatient, deletePatient, indexPatient, removePatientFromOpenSearch,
    opFailed, opWorld, bumpCalls, lookupId_putEntry, lookupId_delEntry]

/-- C5: a successful update overwrites exactly Name, Address, Conditions
and Allergies of the record under the given id (keeping its PatientID),
leaves every other record in the store untouched, and leaves the whole
search index untouched. -/
theorem updatePatient_frame (w : World) (id : String) (u : UpdateInput) :
    opFailed (updatePatient w id u true) = false ∧
    (opWorld (updatePatient w id u true)).sidx = w.sidx ∧
    lookupId (opWorld (updatePatient w id u true)).store id
      = some ⟨id, u.Name, u.Address, u.Conditions, u.Allergies⟩ ∧
    (∀ k, k ≠ id →
      lookupId (opWorld (updatePatient w id u true)).store k
        = lookupId w.store k) ∧
    (∀ old, lookupId w.store id = some old → old.PatientID = id →
      lookupId (opWorld (updatePatient w id u true)).store id
        = some { old with
                  Name := u.Name,
                  Address := u.Address,
                  Conditions := u.Conditions,
                  Allergies := u.Allergies }) := by
  refine ⟨rfl, rfl, ?_, ?_, ?_⟩
  · simp [updatePatient, opWorld, bumpCalls, lookupId_putEntry]
  · intro k hk
    simp [updatePatient, opWorld, bumpCalls, lookupId_putEntry, hk]
  · intro old hold hpid
    rcases old with ⟨pid, n, a, c, al⟩
    simp only at hpid
    subst hpid
    simp [updatePatient, opWorld, bumpCalls, lookupId_putEntry]

theorem updatePatient_frame_witness :
    opFailed (updatePatient
        ⟨[("p1", ⟨"p1", "Jane", "1 Elm", ["asthma"], []⟩),
          ("p2", ⟨"p2", "Bob", "2 Oak", ["flu"], ["nuts"]⟩)], [], 0⟩
        "p1" ⟨"Janet", "9 Pine", ["copd"], ["latex"]⟩ true) = false ∧
    (opWorld (updatePatient
        ⟨[("p1", ⟨"p1", "Jane", "1 Elm", ["asthma"], []⟩),
          ("p2", ⟨"p2", "Bob", "2 Oak", ["flu"], ["nuts"]⟩)], [], 0⟩
        "p1" ⟨"Janet", "9 Pine", ["copd"], ["latex"]⟩ true)).sidx = [] ∧
    lookupId (opWorld (updatePatient
        ⟨[("p1", ⟨"p1", "Jane", "1 Elm", ["asthma"], []⟩),
          ("p2", ⟨"p2", "Bob", "2 Oak", ["flu"], ["nuts"]⟩)], [], 0⟩
        "p1" ⟨"Janet", "9 Pine", ["copd"], ["latex"]⟩ true)).store "p2"
      = lookupId [("p1", ⟨"p1", "Jane", "1 Elm", ["asthma"], []⟩),
          ("p2", ⟨"p2", "Bob", "2 Oak", ["flu"], ["nuts"]⟩)] "p2" ∧
    lookupId (opWorld (updatePatient
        ⟨[("p1", ⟨"p1", "Jane", "1 Elm", ["asthma"], []⟩),
          ("p2", ⟨"p2", "Bob", "2 Oak", ["flu"], ["nuts"]⟩)], [], 0⟩
        "p1" ⟨"Janet", "9 Pine", ["copd"], ["latex"]⟩ true)).store "p1"
      = some ⟨"p1", "Janet", "9 Pine", ["copd"], ["latex"]⟩ :=
  have h := updatePatient_frame
    ⟨[("p1", ⟨"p1", "Jane", "1 Elm", ["asthma"], []⟩),
      ("p2", ⟨"p2", "Bob", "2 Oak", ["flu"], ["nuts"]⟩)], [], 0⟩
    "p1" ⟨"Janet", "9 Pine", ["copd"], ["latex"]⟩
  ⟨h.1, h.2.1, h.2.2.2.1 "p2" (by decide),
    h.2.2.2.2 ⟨"p1", "Jane", "1 Elm", ["asthma"], []⟩ rfl rfl⟩

/-- C10: updating an id that is absent from the record store does not
fail and does not report not-found: the operation succeeds and the store
afterwards holds a record under that id built from the key and the four
update fields. -/
theorem updatePatient_upserts_missing_id
    (w : World) (id : String) (u : UpdateInput)
    (_hmiss : lookupId w.store id = none) :
    opFailed (updatePatient w id u true) = false ∧
    lookupId (opWorld (updatePatient w id u true)).store id
      = some ⟨id, u.Name, u.Address, u.Conditions, u.Allergies⟩ := by
  refine ⟨rfl, ?_⟩
  simp [updatePatient, opWorld, bumpCalls, lookupId_putEntry]

theorem updatePatient_upserts_missing_id_witness :
    opFailed (updatePatient ⟨[], [], 0⟩ "p7"
        ⟨"Janet", "9 Pine", ["copd"], ["latex"]⟩ true) = false ∧
    lookupId (opWorld (updatePatient ⟨[], [], 0⟩ "p7"
        ⟨"Janet", "9 Pine", ["copd"], ["latex"]⟩ true)).store "p7"
      = some ⟨"p7", "Janet", "9 Pine", ["copd"], ["latex"]⟩ :=
  updatePatient_upserts_missing_id ⟨[], [], 0⟩ "p7"
    ⟨"Janet", "9 Pine", ["copd"], ["latex"]⟩ rfl

/-- C9: the create route builds patientData from a freshly minted id and
only the body's Name, Address, Conditions and Allergies; any PatientID
supplied in the request body is ignored (the route behaves identically
for any value of it), and a successful create stores and indexes exactly
that record under the minted id. -/
theorem create_mints_fresh_id
    (freshId : String) (b : CreateBody) (pid : Option String)
    (putOk indexOk : Bool) (w : World) :
    createRoute freshId { b with bodyPatientID := pid } putOk indexOk w
      = createRoute freshId b putOk indexOk w ∧
    (mkPatientData freshId b).PatientID = freshId ∧
    (mkPatientData freshId b).Name = b.Name ∧
    (mkPatientData freshId b).Address = b.Address ∧
    (mkPatientData freshId b).Conditions = b.Conditions ∧
    (mkPatientData freshId b).Allergies = b.Allergies ∧
    lookupId (opWorld (createPatient w (mkPatientData freshId b) true true)).store
      freshId = some (mkPatientData freshId b) ∧
    lookupId (opWorld (createPatient w (mkPatientData freshId b) true true)).sidx
      freshId = some (mkPatientData freshId b) := by
  refine ⟨rfl, rfl, rfl, rfl, rfl, rfl, ?_, ?_⟩ <;>
    simp [createPatient, indexPatient, opWorld, bumpCalls, mkPatientData,
      lookupId_putEntry]

/-- C6 counterexample: with the store holding one patient whose
Conditions list is ["asthma"], the scan for "asth" returns no record
although "asth" occurs in "asthma" as a substring (the spec-worded
substring scan would return the patient): the deployed filter is exact
element membership in the Conditions list, not substring containment. -/
theorem scan_condition_substring_counterexample :
    findPatientsByCondition
        ⟨[("p1", ⟨"p1", "Jane", "1 Elm", ["asthma"], []⟩)], [], 0⟩ "asth" true
      = .ok ⟨[("p1", ⟨"p1", "Jane", "1 Elm", ["asthma"], []⟩)], [], 1⟩ [] ∧
    scanByConditionSpec [("p1", ⟨"p1", "Jane", "1 Elm", ["asthma"], []⟩)] "asth"
      = [⟨"p1", "Jane", "1 Elm", ["asthma"], []⟩] := by decide

/-- C6 amended: the condition scan performs a full-table scan and
returns exactly the records whose Conditions list contains the given
string as an element (exact match of one listed condition, not substring
containment). -/
theorem scan_condition_exact_element_match (w : World) (input : String) :
    findPatientsByCondition w input true
      = .ok (bumpCalls w)
          ((w.store.filter (fun e => dynListContains e.2.Conditions input)).map
            (fun e => e.2)) ∧
    (∀ p : Patient,
      p ∈ (w.store.filter (fun e => dynListContains e.2.Conditions input)).map
          (fun e => e.2) ↔
        ((∃ k, (k, p) ∈ w.store) ∧ input ∈ p.Conditions)) := by
  refine ⟨rfl, ?_⟩
  intro p
  simp only [List.mem_map, List.mem_filter, dynListContains, List.any_eq_true,
    beq_iff_eq]
  constructor
  · rintro ⟨⟨k, q⟩, ⟨hmem, c, hc, hceq⟩, hq⟩
    subst hq
    subst hceq
    exact ⟨⟨k, hmem⟩, hc⟩
  · rintro ⟨⟨k, hmem⟩, hc⟩
    exact ⟨(k, p), ⟨hmem, input, hc, rfl⟩, rfl⟩
